import Mathlib

/-!
Verification of the GiveBit SDK dual-channel delivery subsystem.

This file is a shallow embedding of the TypeScript sources of the
givebit-sdk repository:
  * src/types.ts        — data model (DonationSession, DonationEvent)
  * src/websocket.ts    — WebSocketManager (connect, reconnect with backoff,
                          heartbeat, request/response correlation, routing)
  * src/rest.ts         — RestClient (session creation, fallback polling)
  * src/index.ts        — GiveBit facade (event forwarding, session
                          coordination, silent degrade to polling)

Stateful TypeScript methods become pure functions from an explicit state to
a new state plus a list of observable actions, in the order the code
performs them.  Asynchronous transport callbacks (onopen, onclose, timer
ticks) become labelled signals consumed by a step function.
-/

namespace GiveBitSpec

/-- Lifecycle status of a donation session, from the union type of the
field status in DonationSession (src/types.ts line 30). -/
inductive Status
  | pending
  | confirmed
  | finalized
  | failed
  | expired
deriving DecidableEq, Repr

/-- String form of a status, as it appears on the wire and in the
string concatenation at src/index.ts line 128. -/
def statusToString : Status → String
  | .pending => "pending"
  | .confirmed => "confirmed"
  | .finalized => "finalized"
  | .failed => "failed"
  | .expired => "expired"

/-- DonationSession (src/types.ts lines 21-36).  Numeric fields are
modelled as Int. -/
structure DonationSession where
  id : String
  project_id : String
  creator_wallet : String
  donor_wallet : String
  chain_id : Int
  contract_address : String
  amount : String
  memo : String
  status : Status
  created_at : String
  tx_hash : String
  session_id_hash : String
  requires_confirmation : Bool
  estimated_confirmation_time : Int
deriving DecidableEq, Repr

/-- DonationEvent (src/types.ts lines 41-52).  The declared type field is
a union of six string literals, but the implementation constructs events
whose type is an arbitrary runtime string (src/websocket.ts line 105
forwards message.type verbatim, and src/index.ts line 128 builds the type
by string concatenation behind a cast), so the embedded field is String. -/
structure DonationEvent where
  type : String
  session : Option DonationSession
  timestamp : Int
  error : Option String
deriving DecidableEq, Repr

/-- The six event kinds enumerated by the declared union type of
DonationEvent.type (src/types.ts lines 42-48). -/
def donationEventTypes : List String :=
  ["connection_open", "connection_lost", "donation_pending",
   "donation_confirmed", "donation_finalized", "donation_failed"]

/-- readyState of the underlying ws socket handle.  The source compares
against WebSocket.OPEN; the OPEN constant is embedded as the constructor
opened. -/
inductive ReadyState
  | connecting
  | opened
  | closing
  | closed
deriving DecidableEq, Repr

/-- The socket handle held in the field ws of WebSocketManager.  Only its
readyState is observed by the manager. -/
structure WSHandle where
  readyState : ReadyState
deriving DecidableEq, Repr

/-- State of a WebSocketManager instance (src/websocket.ts lines 15-40).
pendingRequests is embedded by its key set (the continuations live on the
JS side; settlement is reported as an output action), listeners are not
part of the state the verified claims depend on. -/
structure WSMState where
  ws : Option WSHandle
  url : String
  apiKey : String
  projectId : String
  reconnectAttempts : Nat
  maxReconnectAttempts : Nat
  reconnectDelay : Nat
  heartbeatOn : Bool
  pending : List String
  messageId : Nat
deriving DecidableEq, Repr

/-- Observable actions of the manager: events handed to emit, a reconnect
scheduled via setTimeout (attempt number and delay in ms), and the log
line when the attempt budget is exhausted. -/
inductive WSAction
  | emitEvent (kind : String)
  | scheduleReconnect (attempt : Nat) (delayMs : Nat)
  | logMaxReached
deriving DecidableEq, Repr

/-- Fresh manager state as built by the constructor
(src/websocket.ts lines 28-40). -/
def initWSMState (url apiKey projectId : String)
    (maxReconnectAttempts reconnectDelay : Nat) : WSMState :=
  { ws := none
    url := url
    apiKey := apiKey
    projectId := projectId
    reconnectAttempts := 0
    maxReconnectAttempts := maxReconnectAttempts
    reconnectDelay := reconnectDelay
    heartbeatOn := false
    pending := []
    messageId := 0 }

/-- startHeartbeat (src/websocket.ts lines 117-123): arms the interval
timer. -/
def startHeartbeat (s : WSMState) : WSMState :=
  { s with heartbeatOn := true }

/-- stopHeartbeat (src/websocket.ts lines 125-130): clears the interval
timer if armed. -/
def stopHeartbeat (s : WSMState) : WSMState :=
  { s with heartbeatOn := false }

/-- attemptReconnect (src/websocket.ts lines 132-144).  Below the budget:
increment the counter, compute delay = reconnectDelay * 2 ^ (attempts - 1)
with the incremented counter, and schedule connect after that delay.  At
or above the budget: only log. -/
def attemptReconnect (s : WSMState) : WSMState × List WSAction :=
  if s.reconnectAttempts < s.maxReconnectAttempts then
    let attempts := s.reconnectAttempts + 1
    let delay := s.reconnectDelay * 2 ^ (attempts - 1)
    ({ s with reconnectAttempts := attempts },
     [.scheduleReconnect attempts delay])
  else
    (s, [.logMaxReached])

/-- Body of the onopen handler (src/websocket.ts lines 52-62): reset the
attempt counter, start the heartbeat, emit connection_open. -/
def handleOpen (s : WSMState) : WSMState × List WSAction :=
  let s := { s with reconnectAttempts := 0 }
  let s := startHeartbeat s
  (s, [.emitEvent "connection_open"])

/-- Body of the onclose handler (src/websocket.ts lines 73-82): stop the
heartbeat, emit connection_lost, then call attemptReconnect.  The handler
reads nothing from the field ws: it runs the same way whether or not
disconnect has nulled the handle. -/
def handleClose (s : WSMState) : WSMState × List WSAction :=
  let s := stopHeartbeat s
  let r := attemptReconnect s
  (r.1, .emitEvent "connection_lost" :: r.2)

/-- disconnect (src/websocket.ts lines 203-209): stop the heartbeat; if a
handle exists, close the socket and null the handle.  The attempt counter
is not touched. -/
def disconnect (s : WSMState) : WSMState :=
  let s := stopHeartbeat s
  match s.ws with
  | some _ => { s with ws := none }
  | none => s

/-- isConnected (src/websocket.ts lines 211-213). -/
def isConnected (s : WSMState) : Bool :=
  match s.ws with
  | some h => h.readyState == ReadyState.opened
  | none => false

/-- Signals consumed by the manager: an external call to connect (the
callback of a scheduled reconnect timer also just calls connect, line
140), the transport reporting the socket opened, the transport delivering
a close event for a socket whose onclose handler was installed by connect
(delivered also for the socket that disconnect closed, since the handler
stays attached to that socket object), and an external call to
disconnect. -/
inductive WSSignal
  | connectCall
  | openSignal
  | closeSignal
  | disconnectCall
deriving DecidableEq, Repr

/-- One step of the manager.  connectCall installs a fresh CONNECTING
socket handle (src/websocket.ts lines 45-50); openSignal marks the handle
opened and runs the onopen body; closeSignal runs the onclose body;
disconnectCall runs disconnect. -/
def step (s : WSMState) : WSSignal → WSMState × List WSAction
  | .connectCall =>
      ({ s with ws := some { readyState := ReadyState.connecting } }, [])
  | .openSignal =>
      handleOpen { s with ws := s.ws.map fun _ => { readyState := ReadyState.opened } }
  | .closeSignal =>
      handleClose { s with ws := s.ws.map fun _ => { readyState := ReadyState.closed } }
  | .disconnectCall =>
      (disconnect s, [])

/-- Run of the manager over a list of signals, collecting the actions of
every step in order. -/
def run : WSMState → List WSSignal → WSMState × List WSAction
  | s, [] => (s, [])
  | s, sig :: rest =>
      let r1 := step s sig
      let r2 := run r1.1 rest
      (r2.1, r1.2 ++ r2.2)

/-- A parsed inbound JSON frame as read by handleMessage
(src/websocket.ts lines 89-115).  Every field access in the source is on
a possibly absent property, so every field is an Option; the reply
payload message.data is carried as an uninterpreted string. -/
structure Frame where
  id : Option String
  data : Option String
  error : Option String
  type : Option String
  session : Option DonationSession
  timestamp : Option Int
deriving DecidableEq, Repr

/-- JavaScript truthiness of a possibly absent string property: truthy
iff present and non-empty. -/
def truthyStr : Option String → Bool
  | none => false
  | some s => s != ""

/-- JavaScript truthiness of a possibly absent numeric property: truthy
iff present and non-zero. -/
def truthyNum : Option Int → Bool
  | none => false
  | some t => t != 0

/-- Outcome of handleMessage for one inbound data string: a pending
request settled (resolved or rejected), an event emitted to subscribers
of its kind, the frame silently ignored, or a parse failure logged. -/
inductive MsgOutcome
  | settledResolve (id : String) (data : Option String)
  | settledReject (id : String) (error : String)
  | emitted (kind : String) (event : DonationEvent)
  | ignored
  | parseErrorLogged
deriving DecidableEq, Repr

/-- Event-routing branch of handleMessage (src/websocket.ts lines
103-111): if message.type is truthy, construct a DonationEvent whose
timestamp is message.timestamp when truthy and the receive time
otherwise, and emit it under message.type. -/
def routeEvent (s : WSMState) (m : Frame) (now : Int) : WSMState × MsgOutcome :=
  match m.type with
  | some t =>
      if t != "" then
        (s, .emitted t
          { type := t
            session := m.session
            timestamp := match m.timestamp with
              | some ts => if ts != 0 then ts else now
              | none => now
            error := m.error })
      else
        (s, .ignored)
  | none => (s, .ignored)

/-- handleMessage (src/websocket.ts lines 89-115).  The argument none
embeds a data string on which JSON.parse throws.  A frame whose truthy
id matches a pending request settles that request: the entry is deleted
from the pending set, then the request is rejected with message.error if
that field is truthy and resolved with message.data otherwise.  Any
other frame goes to the event-routing branch. -/
def handleMessage (s : WSMState) (msg : Option Frame) (now : Int) :
    WSMState × MsgOutcome :=
  match msg with
  | none => (s, .parseErrorLogged)
  | some m =>
      match m.id with
      | some i =>
          if i != "" && i ∈ s.pending then
            let s1 := { s with pending := s.pending.erase i }
            match m.error with
            | some e =>
                if e != "" then (s1, .settledReject i e)
                else (s1, .settledResolve i m.data)
            | none => (s1, .settledResolve i m.data)
          else
            routeEvent s m now
      | none => routeEvent s m now

/-- Outcome of a call to send: immediate rejection while not connected,
a pending entry armed and the frame transmitted, or the synchronous
transmit failure path that tears the fresh entry down again. -/
inductive SendOutcome
  | rejectedNotConnected (message : String)
  | pendingArmed (id : String)
  | rejectedSendFailure (id : String)
deriving DecidableEq, Repr

/-- send (src/websocket.ts lines 146-171).  If the handle is absent or
not OPEN, reject with a not-connected error and leave the state alone.
Otherwise increment messageId, register the stringified id in the
pending set, and transmit; transmitOk embeds whether the synchronous
ws.send call throws — on a throw the timeout is cleared, the entry
deleted, and the promise rejected. -/
def wsSend (s : WSMState) (transmitOk : Bool) : WSMState × SendOutcome :=
  if !(isConnected s) then
    (s, .rejectedNotConnected "WebSocket not connected")
  else
    let newId := s.messageId + 1
    let i := toString newId
    let s1 := { s with messageId := newId, pending := s.pending ++ [i] }
    if transmitOk then
      (s1, .pendingArmed i)
    else
      ({ s1 with pending := s1.pending.erase i }, .rejectedSendFailure i)

/-- State of a RestClient (src/rest.ts lines 8-18): the pollingIntervals
Map, embedded as an association list in insertion order; the value type
Cb embeds the callback closure stored with each armed timer. -/
structure RestState (Cb : Type) where
  pollingIntervals : List (String × Cb)
deriving DecidableEq, Repr

/-- Lookup in the pollingIntervals Map: the value at the first matching
key, if any. -/
def findCb {Cb : Type} : List (String × Cb) → String → Option Cb
  | [], _ => none
  | (k, v) :: rest, sid => if k == sid then some v else findCb rest sid

/-- Number of entries for one key; a JS Map keeps this at most one, and
the embedded operations preserve that. -/
def countKey {Cb : Type} (l : List (String × Cb)) (sid : String) : Nat :=
  (l.filter fun p => p.1 == sid).length

/-- startPolling (src/rest.ts lines 113-139): a no-op when an entry for
the session already exists, otherwise arm an interval timer and record
it under the session id. -/
def startPolling {Cb : Type} (st : RestState Cb) (sessionId : String)
    (callback : Cb) : RestState Cb :=
  if (findCb st.pollingIntervals sessionId).isSome then st
  else { pollingIntervals := st.pollingIntervals ++ [(sessionId, callback)] }

/-- stopPolling (src/rest.ts lines 141-147): if an entry exists, clear
its timer and delete it from the Map; otherwise do nothing. -/
def stopPolling {Cb : Type} (st : RestState Cb) (sessionId : String) :
    RestState Cb :=
  if (findCb st.pollingIntervals sessionId).isSome then
    { pollingIntervals := st.pollingIntervals.filter fun p => !(p.1 == sessionId) }
  else st

/-- stopAllPolling (src/rest.ts lines 149-152). -/
def stopAllPolling {Cb : Type} (_ : RestState Cb) : RestState Cb :=
  { pollingIntervals := [] }

/-- Result of the fetch a poll tick performs: the fetched session, or a
failure of getDonationSession (network error or non-2xx response). -/
inductive FetchResult
  | ok (session : DonationSession)
  | fetchError
deriving DecidableEq, Repr

/-- Terminal-status test of the tick body (src/rest.ts lines 126-130). -/
def isTerminalStatus : Status → Bool
  | .finalized => true
  | .failed => true
  | .expired => true
  | .pending => false
  | .confirmed => false

/-- Observable actions of one poll tick, in execution order. -/
inductive PollAction (Cb : Type)
  | invoke (cb : Cb) (session : DonationSession)
  | cancelTimer (sessionId : String)
  | logError (sessionId : String)
deriving DecidableEq, Repr

/-- One tick of the interval armed by startPolling (src/rest.ts lines
121-136).  A tick only happens while an entry for the session exists (a
cleared interval no longer fires).  The catch at lines 133-135 wraps the
whole tick body, fetch and callback invocation alike; cbThrows embeds
whether the callback raises when invoked.  On a successful fetch the
stored callback is invoked with the session; if the invocation raises,
control jumps to the catch, which logs, so the terminal check is
skipped and the timer stays armed.  Otherwise, if the status is
terminal, stopPolling cancels the timer.  A fetch failure is caught and
logged and leaves the timer armed. -/
def pollTick {Cb : Type} (st : RestState Cb) (sessionId : String)
    (r : FetchResult) (cbThrows : Bool) : RestState Cb × List (PollAction Cb) :=
  match findCb st.pollingIntervals sessionId with
  | none => (st, [])
  | some cb =>
      match r with
      | .fetchError => (st, [.logError sessionId])
      | .ok session =>
          if cbThrows then
            (st, [.invoke cb session, .logError sessionId])
          else if isTerminalStatus session.status then
            (stopPolling st sessionId, [.invoke cb session, .cancelTimer sessionId])
          else
            (st, [.invoke cb session])

/-- The amount option of createDonationSession, number or string
(src/rest.ts line 34). -/
inductive AmountValue
  | num (n : Int)
  | str (s : String)
deriving DecidableEq, Repr

/-- Amount-to-string conversion (src/rest.ts lines 50-52). -/
def amountToString : AmountValue → String
  | .num n => toString n
  | .str s => s

/-- Options of createDonationSession (src/rest.ts lines 33-39); the
creatorWallet field is an Option so that an absent (undefined) property
is representable. -/
structure CreateOptions where
  amount : AmountValue
  currency : String
  network : String
  creatorWallet : Option String
  donorWallet : Option String
deriving DecidableEq, Repr

/-- The character set String.prototype.trim removes: the ECMAScript
WhiteSpace productions TAB, VT, FF, SP, NBSP, ZWNBSP and the Unicode
space separators, together with the LineTerminator productions LF, CR,
LS, PS. -/
def jsWhitespace (c : Char) : Bool :=
  let n := c.toNat
  (0x09 ≤ n && n ≤ 0x0D) || n == 0x20 || n == 0xA0 || n == 0x1680 ||
  (0x2000 ≤ n && n ≤ 0x200A) || n == 0x2028 || n == 0x2029 ||
  n == 0x202F || n == 0x205F || n == 0x3000 || n == 0xFEFF

/-- Embedding of the JavaScript String.prototype.trim call at
src/rest.ts line 42: drop the characters of jsWhitespace from both
ends.  It is defined over the character list so that it evaluates by
kernel reduction. -/
def jsTrim (s : String) : String :=
  String.mk (((s.data.dropWhile jsWhitespace).reverse.dropWhile
      jsWhitespace).reverse)

/-- Validation guard of RestClient.createDonationSession (src/rest.ts
line 42): the call throws iff the creatorWallet option is falsy (absent
or the empty string) or trims to the empty string. -/
def creatorWalletInvalid (w : Option String) : Bool :=
  match w with
  | none => true
  | some s => s == "" || jsTrim s == ""

/-- RestClient.createDonationSession (src/rest.ts lines 33-74).  The
remote argument embeds what the POST would produce (the parsed session
on a 2xx response, the response text otherwise); the Bool of the result
records whether the network request was issued.  When validation fails
the call rejects with the creator_wallet error and no request is
issued. -/
def restCreateDonationSession (opts : CreateOptions)
    (remote : Except String DonationSession) :
    Except String DonationSession × Bool :=
  if creatorWalletInvalid opts.creatorWallet then
    (.error ("creator_wallet is required. This is the wallet address where donation funds will be sent. " ++
             "Please provide a valid Ethereum address."), false)
  else
    match remote with
    | .ok s => (.ok s, true)
    | .error e => (.error ("Failed to create donation session: " ++ e), true)

/-- State of the GiveBit facade (src/index.ts lines 16-22): its
RestClient, the active-session set, and whether the channel currently
reports connected (the channel state is carried only to show that
session creation and polling never read it). -/
structure FacadeState (Cb : Type) where
  rest : RestState Cb
  activeSessions : List String
  wsConnected : Bool
deriving DecidableEq, Repr

/-- Result of awaiting wsManager.connect inside the facade. -/
inductive WsConnectResult
  | resolved
  | rejected (e : String)
deriving DecidableEq, Repr

/-- GiveBit.connect (src/index.ts lines 83-96): throws only when the
manager was never initialized; otherwise awaits the channel connect in a
try block whose catch only logs a warning, so the facade promise
resolves whether the channel attempt resolved or rejected. -/
def givebitConnect (hasWsManager : Bool) (r : WsConnectResult) :
    Except String Unit :=
  if !hasWsManager then
    .error "WebSocket manager not initialized"
  else
    match r with
    | .resolved => .ok ()
    | .rejected _ => .ok ()

/-- Event type produced for one poll tick by the facade callback
(src/index.ts line 128): the string donation_ prefixed to the fetched
status. -/
def pollBroadcastType (status : Status) : String :=
  "donation_" ++ statusToString status

/-- The DonationEvent the facade poll callback broadcasts for an updated
session (src/index.ts lines 127-131). -/
def pollTickEvent (updatedSession : DonationSession) (now : Int) :
    DonationEvent :=
  { type := pollBroadcastType updatedSession.status
    session := some updatedSession
    timestamp := now
    error := none }

/-- GiveBit.createDonationSession (src/index.ts lines 109-136): run the
RestClient creation (validation then remote call); on success add the
session id to the active set and start polling for it with the
broadcasting callback, regardless of the channel state.  pollCb embeds
the callback closure built at lines 126-132. -/
def givebitCreateDonationSession {Cb : Type} (fs : FacadeState Cb)
    (opts : CreateOptions) (remote : Except String DonationSession)
    (pollCb : Cb) : FacadeState Cb × Except String DonationSession :=
  match restCreateDonationSession opts remote with
  | (.error e, _) => (fs, .error e)
  | (.ok session, _) =>
      ({ fs with
          activeSessions := fs.activeSessions ++ [session.id]
          rest := startPolling fs.rest session.id pollCb },
       .ok session)

/-- GiveBit.disconnect (src/index.ts lines 189-197) as it acts on the
facade state: stop all polling and clear the active-session set. -/
def givebitDisconnect {Cb : Type} (fs : FacadeState Cb) : FacadeState Cb :=
  { fs with rest := stopAllPolling fs.rest, activeSessions := [] }

/-- A concrete manager state as built with the default budget
RECONNECT_ATTEMPTS = 5 and base delay RECONNECT_DELAY = 3000
(src/config.ts lines 27-28). -/
def exInit : WSMState := initWSMState "wss://testnet.example/ws" "key" "proj" 5 3000

/-- The default manager state after two reconnect attempts have been
consumed. -/
def exMid2 : WSMState := { exInit with reconnectAttempts := 2 }

/-- The default manager state with one outstanding pending request of
id 1. -/
def exPendingState : WSMState :=
  { exInit with pending := ["1"], messageId := 1 }

/-- A concrete donation session. -/
def exSession : DonationSession :=
  { id := "s1"
    project_id := "p1"
    creator_wallet := "0xabc"
    donor_wallet := ""
    chain_id := 17000
    contract_address := "0xc0de"
    amount := "1"
    memo := ""
    status := Status.pending
    created_at := "2025-01-01T00:00:00Z"
    tx_hash := ""
    session_id_hash := ""
    requires_confirmation := false
    estimated_confirmation_time := 60 }

/-- The concrete session in the expired terminal status. -/
def exExpiredSession : DonationSession := { exSession with status := Status.expired }

/-- The concrete session in the finalized terminal status. -/
def exFinalizedSession : DonationSession := { exSession with status := Status.finalized }

/-- A reply frame whose error field is present but empty. -/
def exEmptyErrorFrame : Frame :=
  { id := some "1"
    data := some "payload"
    error := some ""
    type := none
    session := none
    timestamp := none }

/-- A reply frame carrying a non-empty error. -/
def exErrFrame : Frame :=
  { id := some "1"
    data := none
    error := some "boom"
    type := none
    session := none
    timestamp := none }

/-- An event frame whose timestamp field is present but zero. -/
def exZeroTsFrame : Frame :=
  { id := none
    data := none
    error := none
    type := some "donation_pending"
    session := some exSession
    timestamp := some 0 }

/-- A concrete RestClient state polling session s1 (callbacks embedded
as naturals). -/
def exRestState : RestState Nat := { pollingIntervals := [("s1", 0)] }

/-- A concrete RestClient state polling nothing. -/
def exEmptyRest : RestState Nat := { pollingIntervals := [] }

/-- Concrete creation options whose creatorWallet is whitespace only. -/
def exBadOpts : CreateOptions :=
  { amount := AmountValue.str "1"
    currency := "ETH"
    network := "holesky"
    creatorWallet := some "  "
    donorWallet := none }

/-- Concrete creation options with a valid creatorWallet. -/
def exGoodOpts : CreateOptions :=
  { amount := AmountValue.str "1"
    currency := "ETH"
    network := "holesky"
    creatorWallet := some "0xabc"
    donorWallet := none }

/-- A concrete facade state with no active sessions and the channel
reported down. -/
def exFacade : FacadeState Nat :=
  { rest := exEmptyRest, activeSessions := [], wsConnected := false }

/-- Helper: the event-routing branch never changes the manager state. -/
theorem routeEvent_fst (s : WSMState) (m : Frame) (now : Int) :
    (routeEvent s m now).1 = s := by
  unfold routeEvent
  cases m.type with
  | none => rfl
  | some t =>
      by_cases h : t != ""
      · simp [h]
      · simp [h]

/-- C1: the spec states that after an explicit disconnect no reconnection
is scheduled (the nulled handle suppressing the close handler) and the
attempt counter is reset to zero.  Evaluating the embedded code: from the
fresh default state, after connect, open, disconnect, the handle is
nulled, yet the close event of the socket that disconnect closed still
runs the full onclose body, which emits connection_lost and schedules
reconnect attempt 1 after 3000 ms; and disconnect leaves a previously
incremented counter at 1 rather than resetting it. -/
theorem C1_disconnect_schedules_reconnect_eval :
    (run exInit [WSSignal.connectCall, WSSignal.openSignal, WSSignal.disconnectCall]).1.ws = none ∧
    (step (run exInit [WSSignal.connectCall, WSSignal.openSignal, WSSignal.disconnectCall]).1
        WSSignal.closeSignal).2
      = [WSAction.emitEvent "connection_lost", WSAction.scheduleReconnect 1 3000] ∧
    (run exInit [WSSignal.connectCall, WSSignal.closeSignal, WSSignal.disconnectCall]).1.reconnectAttempts = 1 := by
  decide

/-- C2: for every manager state, a successful open resets the
reconnect-attempt counter to zero; an unexpected close below the budget
increments the counter by exactly one and schedules reconnect attempt
n = counter + 1 with delay reconnectDelay * 2 ^ (n - 1); a close at or
above the budget leaves the counter unchanged and schedules nothing; and
every scheduled reconnect arises from a close below the budget with
exactly that attempt number and delay. -/
theorem C2_reconnect_backoff (s : WSMState) (n d : Nat) (sig : WSSignal) :
    (step s WSSignal.openSignal).1.reconnectAttempts = 0 ∧
    (s.reconnectAttempts < s.maxReconnectAttempts →
      (step s WSSignal.closeSignal).1.reconnectAttempts = s.reconnectAttempts + 1 ∧
      WSAction.scheduleReconnect (s.reconnectAttempts + 1)
          (s.reconnectDelay * 2 ^ s.reconnectAttempts) ∈ (step s WSSignal.closeSignal).2) ∧
    (s.maxReconnectAttempts ≤ s.reconnectAttempts →
      (step s WSSignal.closeSignal).1.reconnectAttempts = s.reconnectAttempts ∧
      ∀ m dl, WSAction.scheduleReconnect m dl ∉ (step s WSSignal.closeSignal).2) ∧
    (WSAction.scheduleReconnect n d ∈ (step s sig).2 →
      sig = WSSignal.closeSignal ∧ s.reconnectAttempts < s.maxReconnectAttempts ∧
      n = s.reconnectAttempts + 1 ∧ d = s.reconnectDelay * 2 ^ (n - 1)) := by
  refine ⟨?_, ?_, ?_, ?_⟩
  · simp [step, handleOpen, startHeartbeat]
  · intro h
    simp [step, handleClose, stopHeartbeat, attemptReconnect, h]
  · intro h
    have h2 : ¬ s.reconnectAttempts < s.maxReconnectAttempts := Nat.not_lt.mpr h
    simp [step, handleClose, stopHeartbeat, attemptReconnect, h2]
  · intro hmem
    cases sig with
    | connectCall => simp [step] at hmem
    | openSignal => simp [step, handleOpen, startHeartbeat] at hmem
    | disconnectCall => simp [step, disconnect, stopHeartbeat] at hmem
    | closeSignal =>
        by_cases h : s.reconnectAttempts < s.maxReconnectAttempts
        · simp [step, handleClose, stopHeartbeat, attemptReconnect, h] at hmem
          exact ⟨rfl, h, hmem.1, by simp [hmem.1, hmem.2]⟩
        · simp [step, handleClose, stopHeartbeat, attemptReconnect, h] at hmem

/-- Witness for C2 at the concrete state with two attempts consumed:
open resets the counter to 0, a further close takes it to 3 and
schedules attempt 3 after 3000 * 2 ^ 2 = 12000 ms. -/
theorem C2_reconnect_backoff_witness :
    (step exMid2 WSSignal.openSignal).1.reconnectAttempts = 0 ∧
    (step exMid2 WSSignal.closeSignal).1.reconnectAttempts = 3 ∧
    WSAction.scheduleReconnect 3 12000 ∈ (step exMid2 WSSignal.closeSignal).2 := by
  obtain ⟨h1, h2, -, -⟩ := C2_reconnect_backoff exMid2 0 0 WSSignal.closeSignal
  obtain ⟨h2a, h2b⟩ := h2 (by decide)
  refine ⟨h1, ?_, ?_⟩
  · simpa [exMid2, exInit, initWSMState] using h2a
  · simpa [exMid2, exInit, initWSMState] using h2b

/-- C3: the spec states every broadcast event carries one of exactly six
kinds.  Evaluating the embedded code at a poll tick that fetches the
expired terminal status: the facade broadcasts an event of type
donation_expired, which is outside the six kinds declared by
DonationEvent. -/
theorem C3_poll_event_kind_eval :
    (pollTickEvent exExpiredSession 0).type = "donation_expired" ∧
    (pollTickEvent exExpiredSession 0).type ∉ donationEventTypes := by
  decide

/-- C4 counterexample: the claim states a matched request is rejected
whenever the reply carries an error field.  At the concrete reply whose
error field is present but the empty string, the embedded handleMessage
resolves the request with the data field instead of rejecting, because
the source tests truthiness of message.error, not presence. -/
theorem C4_error_presence_counterexample :
    exEmptyErrorFrame.error.isSome = true ∧
    (handleMessage exPendingState (some exEmptyErrorFrame) 0).2
      = MsgOutcome.settledResolve "1" (some "payload") ∧
    (handleMessage exPendingState (some exEmptyErrorFrame) 0).2
      ≠ MsgOutcome.settledReject "1" "" := by
  decide

/-- C4 amended: for every reply frame whose identifier matches a pending
request, the request settles exactly once — rejected with the error iff
the error field is present and truthy (non-empty), resolved with the
data field otherwise — and the entry is removed from the pending set;
for every frame matching no pending request, the pending set is left
unchanged. -/
theorem C4_reply_settlement (s : WSMState) (m : Frame) (now : Int) :
    (∀ i, m.id = some i → i ≠ "" → i ∈ s.pending →
      (handleMessage s (some m) now).1.pending = s.pending.erase i ∧
      (handleMessage s (some m) now).2 =
        (if truthyStr m.error then MsgOutcome.settledReject i (m.error.getD "")
         else MsgOutcome.settledResolve i m.data)) ∧
    ((∀ i, m.id = some i → i = "" ∨ i ∉ s.pending) →
      (handleMessage s (some m) now).1.pending = s.pending) := by
  constructor
  · intro i hid hne hmem
    have hcond : (i != "" && decide (i ∈ s.pending)) = true := by
      simp [hne, hmem]
    cases herr : m.error with
    | none => simp [handleMessage, hid, hcond, herr, truthyStr]
    | some e =>
        by_cases he : e = ""
        · simp [handleMessage, hid, hcond, herr, truthyStr, he]
        · simp [handleMessage, hid, hcond, herr, truthyStr, he]
  · intro hno
    cases hid : m.id with
    | none => simp [handleMessage, hid, routeEvent_fst]
    | some i =>
        have hcond : (i != "" && decide (i ∈ s.pending)) = false := by
          rcases hno i hid with h | h
          · simp [h]
          · simp [h]
        simp [handleMessage, hid, hcond, routeEvent_fst]

/-- Witness for C4 at the concrete matched reply carrying the non-empty
error boom: the entry is removed and the request is rejected with
boom. -/
theorem C4_reply_settlement_witness :
    (handleMessage exPendingState (some exErrFrame) 0).1.pending = [] ∧
    (handleMessage exPendingState (some exErrFrame) 0).2
      = MsgOutcome.settledReject "1" "boom" := by
  obtain ⟨h1, -⟩ := C4_reply_settlement exPendingState exErrFrame 0
  obtain ⟨ha, hb⟩ := h1 "1" rfl (by decide) (by decide)
  constructor
  · rw [ha]; decide
  · rw [hb]; decide

/-- Helper: looking up a key in a list from which every entry with that
key has been filtered out yields nothing. -/
theorem findCb_filter_self {Cb : Type} (l : List (String × Cb)) (sid : String) :
    findCb (l.filter fun p => !(p.1 == sid)) sid = none := by
  induction l with
  | nil => rfl
  | cons p rest ih =>
      by_cases h : p.1 = sid
      · simp [List.filter_cons, h, ih]
      · simp [List.filter_cons, h, findCb, ih]

/-- Helper: after stopPolling, no timer entry remains for the session. -/
theorem stopPolling_find_none {Cb : Type} (st : RestState Cb) (sid : String) :
    findCb (stopPolling st sid).pollingIntervals sid = none := by
  unfold stopPolling
  by_cases h : (findCb st.pollingIntervals sid).isSome
  · simp only [h, if_pos]
    exact findCb_filter_self st.pollingIntervals sid
  · simp only [h, if_neg, Bool.false_eq_true, not_false_iff]
    exact Option.not_isSome_iff_eq_none.mp h

/-- C5 counterexample: the claim states the timer is cancelled exactly
when a tick fetches a terminal status.  At the concrete tick that
fetches the finalized session but whose callback invocation raises, the
catch wrapping the tick body skips the terminal check, so the timer
stays armed although the fetch was terminal. -/
theorem C5_throwing_callback_counterexample :
    isTerminalStatus exFinalizedSession.status = true ∧
    findCb (pollTick exRestState "s1" (FetchResult.ok exFinalizedSession) true).1.pollingIntervals "s1"
      = some 0 := by
  decide

/-- C5 amended: for every RestClient state in which a timer with
callback cb is armed for a session, a tick removes that timer exactly
when its fetch succeeds with a terminal status and the callback
invocation returns normally, and then its action sequence invokes the
callback before cancelling the timer; a callback that raises is caught
and logged and leaves the timer armed even on a terminal fetch; a
failed fetch only logs and leaves state and timer untouched; a
non-terminal fetch with a normally returning callback invokes it and
leaves the timer armed; and once no timer exists for the session, a
tick does nothing. -/
theorem C5_poll_terminal_stop {Cb : Type} (st : RestState Cb) (sid : String)
    (cb : Cb) (r : FetchResult) (cbThrows : Bool)
    (hpoll : findCb st.pollingIntervals sid = some cb) :
    ((findCb (pollTick st sid r cbThrows).1.pollingIntervals sid = none) ↔
      (cbThrows = false ∧
        ∃ sess, r = FetchResult.ok sess ∧ isTerminalStatus sess.status = true)) ∧
    (r = FetchResult.fetchError →
      pollTick st sid r cbThrows = (st, [PollAction.logError sid])) ∧
    (∀ sess, r = FetchResult.ok sess → cbThrows = false →
      isTerminalStatus sess.status = true →
      (pollTick st sid r cbThrows).2 = [PollAction.invoke cb sess, PollAction.cancelTimer sid]) ∧
    (∀ sess, r = FetchResult.ok sess → cbThrows = false →
      isTerminalStatus sess.status = false →
      pollTick st sid r cbThrows = (st, [PollAction.invoke cb sess])) ∧
    (∀ sess, r = FetchResult.ok sess → cbThrows = true →
      pollTick st sid r cbThrows = (st, [PollAction.invoke cb sess, PollAction.logError sid])) ∧
    (∀ (st2 : RestState Cb) (r2 : FetchResult) (b2 : Bool),
      findCb st2.pollingIntervals sid = none →
      pollTick st2 sid r2 b2 = (st2, [])) := by
  have hfe : pollTick st sid FetchResult.fetchError cbThrows
      = (st, [PollAction.logError sid]) := by
    simp [pollTick, hpoll]
  have hokthrow : ∀ sess, pollTick st sid (FetchResult.ok sess) true
      = (st, [PollAction.invoke cb sess, PollAction.logError sid]) := by
    intro sess
    simp [pollTick, hpoll]
  have hokterm : ∀ sess, isTerminalStatus sess.status = true →
      pollTick st sid (FetchResult.ok sess) false
        = (stopPolling st sid, [PollAction.invoke cb sess, PollAction.cancelTimer sid]) := by
    intro sess hterm
    simp [pollTick, hpoll, hterm]
  have hoknon : ∀ sess, isTerminalStatus sess.status = false →
      pollTick st sid (FetchResult.ok sess) false
        = (st, [PollAction.invoke cb sess]) := by
    intro sess hterm
    simp [pollTick, hpoll, hterm]
  refine ⟨?_, ?_, ?_, ?_, ?_, ?_⟩
  · constructor
    · intro h
      cases r with
      | fetchError => simp [hfe, hpoll] at h
      | ok sess =>
          cases cbThrows with
          | true => simp [hokthrow sess, hpoll] at h
          | false =>
              by_cases hterm : isTerminalStatus sess.status
              · exact ⟨rfl, sess, rfl, hterm⟩
              · rw [Bool.not_eq_true] at hterm
                simp [hoknon sess hterm, hpoll] at h
    · rintro ⟨hb, sess, hsess, hterm⟩
      subst hb
      subst hsess
      simp [hokterm sess hterm, stopPolling_find_none]
  · intro hr
    subst hr
    exact hfe
  · intro sess hr hb hterm
    subst hr
    subst hb
    simp [hokterm sess hterm]
  · intro sess hr hb hterm
    subst hr
    subst hb
    exact hoknon sess hterm
  · intro sess hr hb
    subst hr
    subst hb
    exact hokthrow sess
  · intro st2 r2 b2 hnone
    simp [pollTick, hnone]

/-- Witness for C5 at the concrete state polling s1: fetching the
finalized session with a normally returning callback invokes the
callback with that session, cancels the timer, and afterwards no timer
for s1 remains. -/
theorem C5_poll_terminal_stop_witness :
    findCb (pollTick exRestState "s1" (FetchResult.ok exFinalizedSession) false).1.pollingIntervals "s1" = none ∧
    (pollTick exRestState "s1" (FetchResult.ok exFinalizedSession) false).2
      = [PollAction.invoke 0 exFinalizedSession, PollAction.cancelTimer "s1"] := by
  obtain ⟨h1, -, h3, -, -, -⟩ :=
    C5_poll_terminal_stop exRestState "s1" 0 (FetchResult.ok exFinalizedSession) false (by decide)
  exact ⟨h1.mpr ⟨rfl, exFinalizedSession, rfl, by decide⟩,
         h3 exFinalizedSession rfl rfl (by decide)⟩

/-- Helper: appending a fresh entry for a key not yet present makes the
lookup of that key find it. -/
theorem findCb_append_self {Cb : Type} (l : List (String × Cb)) (sid : String)
    (cb : Cb) (h : findCb l sid = none) :
    findCb (l ++ [(sid, cb)]) sid = some cb := by
  induction l with
  | nil => simp [findCb]
  | cons p rest ih =>
      obtain ⟨k, v⟩ := p
      by_cases hp : k = sid
      · simp [findCb, hp] at h
      · simp only [List.cons_append]
        simp [findCb, hp] at h ⊢
        exact ih h

/-- Helper: a key that lookup does not find has no entries at all. -/
theorem countKey_eq_zero {Cb : Type} (l : List (String × Cb)) (sid : String)
    (h : findCb l sid = none) : countKey l sid = 0 := by
  induction l with
  | nil => rfl
  | cons p rest ih =>
      obtain ⟨k, v⟩ := p
      by_cases hp : k = sid
      · simp [findCb, hp] at h
      · simp only [findCb, beq_iff_eq, hp, if_false, if_neg, not_false_iff] at h
        simpa [countKey, List.filter_cons, hp] using ih h

/-- Helper: appending one entry for a key adds exactly one to its entry
count. -/
theorem countKey_append_single {Cb : Type} (l : List (String × Cb))
    (sid : String) (cb : Cb) :
    countKey (l ++ [(sid, cb)]) sid = countKey l sid + 1 := by
  simp [countKey, List.filter_append]

/-- Helper: startPolling is a no-op when a timer entry for the session
already exists. -/
theorem startPolling_of_isSome {Cb : Type} (st : RestState Cb) (sid : String)
    (cb : Cb) (h : (findCb st.pollingIntervals sid).isSome = true) :
    startPolling st sid cb = st := by
  simp [startPolling, h]

/-- Helper: after startPolling, a timer entry for the session exists. -/
theorem startPolling_find_isSome {Cb : Type} (st : RestState Cb) (sid : String)
    (cb : Cb) :
    (findCb (startPolling st sid cb).pollingIntervals sid).isSome = true := by
  by_cases h : (findCb st.pollingIntervals sid).isSome
  · rw [startPolling_of_isSome st sid cb h]
    exact h
  · have hn : findCb st.pollingIntervals sid = none :=
      Option.not_isSome_iff_eq_none.mp h
    simp [startPolling, h, findCb_append_self st.pollingIntervals sid cb hn]

/-- C6: the facade connect resolves for every outcome of the channel
attempt (the catch block only logs), and a session created afterwards
has polling started for its id whatever the channel state recorded in
the facade, so status updates flow via polling alone. -/
theorem C6_facade_connect_resolves {Cb : Type} (r : WsConnectResult)
    (fs : FacadeState Cb) (opts : CreateOptions)
    (remote : Except String DonationSession) (pollCb : Cb)
    (session : DonationSession)
    (hok : (restCreateDonationSession opts remote).1 = Except.ok session) :
    givebitConnect true r = Except.ok () ∧
    (givebitCreateDonationSession fs opts remote pollCb).2 = Except.ok session ∧
    (findCb (givebitCreateDonationSession fs opts remote pollCb).1.rest.pollingIntervals
        session.id).isSome = true := by
  rcases hres : restCreateDonationSession opts remote with ⟨res, b⟩
  rw [hres] at hok
  have hok2 : res = Except.ok session := hok
  subst hok2
  refine ⟨?_, ?_, ?_⟩
  · cases r <;> rfl
  · simp [givebitCreateDonationSession, hres]
  · simp [givebitCreateDonationSession, hres, startPolling_find_isSome]

/-- Witness for C6 at a facade whose channel is down: connect resolves
after a rejected channel attempt, and a created session is polled. -/
theorem C6_facade_connect_resolves_witness :
    givebitConnect true (WsConnectResult.rejected "refused") = Except.ok () ∧
    (givebitCreateDonationSession exFacade exGoodOpts (Except.ok exSession) 42).2
      = Except.ok exSession ∧
    (findCb (givebitCreateDonationSession exFacade exGoodOpts (Except.ok exSession) 42).1.rest.pollingIntervals
        exSession.id).isSome = true :=
  C6_facade_connect_resolves (WsConnectResult.rejected "refused") exFacade
    exGoodOpts (Except.ok exSession) 42 exSession (by rfl)

/-- C7: session creation rejects, with no network request issued, for
every options value whose creatorWallet is absent, empty, or whitespace
only; and the create request is issued exactly when the field is
non-empty after trimming. -/
theorem C7_create_validation (opts : CreateOptions)
    (remote : Except String DonationSession) :
    ((opts.creatorWallet = none ∨ opts.creatorWallet = some "" ∨
        (∃ s, opts.creatorWallet = some s ∧ jsTrim s = "")) →
      (restCreateDonationSession opts remote).2 = false ∧
      ∃ e, (restCreateDonationSession opts remote).1 = Except.error e) ∧
    ((restCreateDonationSession opts remote).2 = true ↔
      ∃ s, opts.creatorWallet = some s ∧ jsTrim s ≠ "") := by
  cases hw : opts.creatorWallet with
  | none =>
      constructor
      · intro _
        simp [restCreateDonationSession, creatorWalletInvalid, hw]
      · simp [restCreateDonationSession, creatorWalletInvalid, hw]
  | some s =>
      by_cases ht : jsTrim s = ""
      · have hinv : creatorWalletInvalid (some s) = true := by
          simp [creatorWalletInvalid, ht]
        constructor
        · intro _
          simp [restCreateDonationSession, hw, hinv]
        · simp only [restCreateDonationSession, hw, hinv, if_pos]
          constructor
          · intro hfalse
            exact absurd hfalse (by simp)
          · rintro ⟨s2, hs2, ht2⟩
            injection hs2 with he
            subst he
            exact absurd ht ht2
      · have hinv : creatorWalletInvalid (some s) = false := by
          have hs : (s == "") = false := by
            rcases eq_or_ne s "" with he | hne
            · subst he
              exact absurd rfl ht
            · simp [hne]
          simp [creatorWalletInvalid, hs, ht]
        constructor
        · rintro (hc | hc | ⟨s2, hs2, ht2⟩)
          · exact Option.noConfusion hc
          · injection hc with he
            subst he
            exact absurd rfl ht
          · injection hs2 with he
            subst he
            exact absurd ht2 ht
        · constructor
          · intro _
            exact ⟨s, rfl, ht⟩
          · intro _
            cases remote with
            | ok sess => simp [restCreateDonationSession, hw, hinv]
            | error e => simp [restCreateDonationSession, hw, hinv]

/-- Witness for C7 at options whose creatorWallet is whitespace only:
the call rejects and no request is issued. -/
theorem C7_create_validation_witness :
    (restCreateDonationSession exBadOpts (Except.ok exSession)).2 = false ∧
    ∃ e, (restCreateDonationSession exBadOpts (Except.ok exSession)).1 = Except.error e :=
  (C7_create_validation exBadOpts (Except.ok exSession)).1
    (Or.inr (Or.inr ⟨"  ", rfl, by decide⟩))

/-- C8: for every manager state whose handle is absent or not OPEN,
send rejects at once with the not-connected error, leaving the state —
in particular the pending-request set — unchanged. -/
theorem C8_send_not_connected (s : WSMState) (transmitOk : Bool)
    (h : isConnected s = false) :
    wsSend s transmitOk = (s, SendOutcome.rejectedNotConnected "WebSocket not connected") ∧
    (wsSend s transmitOk).1.pending = s.pending := by
  simp [wsSend, h]

/-- Witness for C8 at the fresh default state (no handle). -/
theorem C8_send_not_connected_witness :
    wsSend exInit true = (exInit, SendOutcome.rejectedNotConnected "WebSocket not connected") :=
  (C8_send_not_connected exInit true (by rfl)).1

/-- C9: for every RestClient state with no timer for the session, two
startPolling calls for that session leave exactly the state of the
first call, with exactly one timer entry for the session, holding the
callback of the first call. -/
theorem C9_startPolling_idempotent {Cb : Type} (st : RestState Cb)
    (sid : String) (cb1 cb2 : Cb)
    (h : findCb st.pollingIntervals sid = none) :
    startPolling (startPolling st sid cb1) sid cb2 = startPolling st sid cb1 ∧
    countKey (startPolling (startPolling st sid cb1) sid cb2).pollingIntervals sid = 1 ∧
    findCb (startPolling (startPolling st sid cb1) sid cb2).pollingIntervals sid = some cb1 := by
  have h1 : startPolling st sid cb1 =
      RestState.mk (st.pollingIntervals ++ [(sid, cb1)]) := by
    simp [startPolling, h]
  have h2 : findCb (startPolling st sid cb1).pollingIntervals sid = some cb1 := by
    rw [h1]
    exact findCb_append_self _ _ _ h
  have h3 : startPolling (startPolling st sid cb1) sid cb2 = startPolling st sid cb1 :=
    startPolling_of_isSome _ _ _ (by simp [h2])
  refine ⟨h3, ?_, ?_⟩
  · rw [h3, h1]
    simp only [countKey_append_single]
    rw [countKey_eq_zero st.pollingIntervals sid h]
  · rw [h3]
    exact h2

/-- Witness for C9 from the empty RestClient state. -/
theorem C9_startPolling_idempotent_witness :
    startPolling (startPolling exEmptyRest "s1" 7) "s1" 8 = startPolling exEmptyRest "s1" 7 ∧
    countKey (startPolling (startPolling exEmptyRest "s1" 7) "s1" 8).pollingIntervals "s1" = 1 ∧
    findCb (startPolling (startPolling exEmptyRest "s1" 7) "s1" 8).pollingIntervals "s1" = some 7 :=
  C9_startPolling_idempotent exEmptyRest "s1" 7 8 rfl

/-- C10: for every inbound event frame (one routed to the event branch)
whose timestamp field is present but zero — a falsy value — the
constructed event carries the receive time, exactly as for an absent
field. -/
theorem C10_falsy_timestamp (s : WSMState) (m : Frame) (t : String) (now : Int)
    (htype : m.type = some t) (ht : t ≠ "")
    (hnorep : ∀ i, m.id = some i → i = "" ∨ i ∉ s.pending)
    (hts : m.timestamp = some 0) :
    (handleMessage s (some m) now).2 =
      MsgOutcome.emitted t
        { type := t, session := m.session, timestamp := now, error := m.error } := by
  have hroute : routeEvent s m now =
      (s, MsgOutcome.emitted t
        { type := t, session := m.session, timestamp := now, error := m.error }) := by
    simp [routeEvent, htype, ht, hts]
  cases hid : m.id with
  | none => simp [handleMessage, hid, hroute]
  | some i =>
      have hcond : (i != "" && decide (i ∈ s.pending)) = false := by
        rcases hnorep i hid with h | h
        · simp [h]
        · simp [h]
      simp [handleMessage, hid, hcond, hroute]

/-- Witness for C10 at the concrete event frame with timestamp zero:
the emitted event carries the receive time 777. -/
theorem C10_falsy_timestamp_witness :
    (handleMessage exInit (some exZeroTsFrame) 777).2 =
      MsgOutcome.emitted "donation_pending"
        { type := "donation_pending", session := some exSession,
          timestamp := 777, error := none } :=
  C10_falsy_timestamp exInit exZeroTsFrame "donation_pending" 777 rfl
    (by decide) (fun i hcontra => Option.noConfusion hcontra) rfl

end GiveBitSpec
